import Mathlib

/-!
Verification of the BeeAI demonstration agents (`src/beeai_agents/agent.py`)
against their natural-language specification.

The Python module defines two pure helpers, `validate_input` and
`extract_user_intent`, and an async generator `enhanced_hello_world_agent`
that validates a message batch, analyses the extracted text and yields a
fixed sequence of responses.  We embed the pure helpers as Lean functions on
explicit data types, and the generator as a function from the batch (and the
external text-extraction collaborator, which may fail) to the list of values
it yields.  Logging and `asyncio.sleep` pauses are effects with no influence
on the yielded values and are dropped from the embedding.
-/

namespace BeeaiAgent

/-! ## String primitives

Python string operations used by the agent, embedded on `List Char` /
`String`.  `strContains s pat` is Python's `pat in s` (substring containment,
with the empty pattern contained in everything). -/

/-- Embeds Python list/str prefix testing: `pat` is a prefix of `l`. -/
def isPrefixOfChars : List Char → List Char → Bool
  | [], _ => true
  | _ :: _, [] => false
  | a :: as, b :: bs => a == b && isPrefixOfChars as bs

/-- Auxiliary for substring containment: does `l` contain `pat` anywhere? -/
def strContainsAux (pat : List Char) : List Char → Bool
  | [] => isPrefixOfChars pat []
  | c :: cs => isPrefixOfChars pat (c :: cs) || strContainsAux pat cs

/-- Embeds Python's `pat in s` for strings: substring containment. -/
def strContains (s pat : String) : Bool :=
  strContainsAux pat.data s.data

/-- Embeds Python's no-argument `str.split()`: splits on runs of whitespace
and never produces empty tokens (`"".split()` is `[]`).  The accumulator
holds the current in-progress token, reversed. -/
def pySplitAux : List Char → List Char → List String
  | [], acc => if acc.isEmpty then [] else [String.mk acc.reverse]
  | c :: cs, acc =>
    if c.isWhitespace then
      if acc.isEmpty then pySplitAux cs [] else String.mk acc.reverse :: pySplitAux cs []
    else
      pySplitAux cs (c :: acc)

/-- Python `s.split()` (no separator argument). -/
def pySplit (s : String) : List String :=
  pySplitAux s.data []

/-- Embeds Python's `str.lower()` (ASCII case folding, per character; all the
keyword lists the agent compares against are ASCII). -/
def pyLower (s : String) : String :=
  String.mk (s.data.map Char.toLower)

/-- The apostrophe character, used inside the agent's canned response text. -/
def apos : String :=
  String.singleton (Char.ofNat 39)

/-! ## Data model

The message/part model consumed from `acp_sdk.models`.  A Python
`MessagePart.content` can be a string or (in malformed input) a non-string
value; `PartContent.nonText` records a non-string content together with its
Python truthiness, which is all `validate_input` can observe about it. -/

inductive PartContent
  | text (s : String)
  | nonText (truthy : Bool)
deriving DecidableEq

structure MessagePart where
  content : PartContent
  content_type : String
deriving DecidableEq

structure Message where
  role : String
  parts : List MessagePart
deriving DecidableEq

/-! ## validate_input (agent.py lines 24-44) -/

/-- One part passes the check `not (not part.content or not
isinstance(part.content, str))`: the content is a string and non-empty.
A non-string content fails either the truthiness test (when falsy) or the
`isinstance` test (when truthy). -/
def part_valid (p : MessagePart) : Bool :=
  match p.content with
  | .text s => !(s == "")
  | .nonText _ => false

/-- Embeds `validate_input`: false when the batch is empty, when some message
has no parts, or when some part fails `part_valid`; true otherwise.  The
Python early-return loops are the two `List.all` quantifiers. -/
def validate_input (messages : List Message) : Bool :=
  !messages.isEmpty &&
    messages.all fun m => !m.parts.isEmpty && m.parts.all part_valid

/-! ## extract_user_intent (agent.py lines 47-83) -/

/-- The fixed positive word list (agent.py line 72). -/
def positive_words : List String :=
  ["good", "great", "awesome", "wonderful", "excellent", "love", "like"]

/-- The fixed negative word list (agent.py line 73). -/
def negative_words : List String :=
  ["bad", "terrible", "awful", "hate", "dislike", "horrible"]

/-- The fixed greeting substrings (agent.py lines 64-65). -/
def greeting_words : List String :=
  ["hello", "hi", "hey", "greetings", "good morning", "good afternoon"]

/-- The fixed farewell substrings (agent.py lines 66-67). -/
def farewell_words : List String :=
  ["bye", "goodbye", "farewell", "see you", "take care"]

/-- `sum(1 for word in positive_words if word in user_message_lower)`. -/
def positive_count (user_message_lower : String) : Nat :=
  List.countP (fun w => strContains user_message_lower w) positive_words

/-- `sum(1 for word in negative_words if word in user_message_lower)`. -/
def negative_count (user_message_lower : String) : Nat :=
  List.countP (fun w => strContains user_message_lower w) negative_words

/-- The dict produced by `extract_user_intent` (the spec's IntentRecord). -/
structure IntentRecord where
  message : String
  intent : String
  sentiment : String
  contains_question : Bool
  is_greeting : Bool
  is_farewell : Bool
  word_count : Nat
deriving DecidableEq

/-- Embeds `extract_user_intent`. -/
def extract_user_intent (user_message : String) : IntentRecord :=
  let user_message_lower := pyLower user_message
  let pc := positive_count user_message_lower
  let nc := negative_count user_message_lower
  { message := user_message
    intent := "general_chat"
    sentiment :=
      if nc < pc then "positive"
      else if pc < nc then "negative"
      else "neutral"
    contains_question := strContains user_message "?"
    is_greeting := greeting_words.any fun g => strContains user_message_lower g
    is_farewell := farewell_words.any fun f => strContains user_message_lower f
    word_count := (pySplit user_message).length }

/-! ## The orchestration routine (agent.py lines 90-188)

`enhanced_hello_world_agent` is an async generator.  We embed it as a
function from the message batch to the list of values it yields.  The only
external fallible collaborator on the happy path is the text-extraction
helper `get_message_text` (imported from `acp_sdk.utils.message_utils`), so
the embedding takes it as a parameter of type
`List Message → Except Failure String`; an `Except.error` models an
exception escaping from processing, which the routine's outermost
`try/except` converts into a single user-facing error message.  Logging and
the two `asyncio.sleep` pauses yield nothing and are dropped. -/

/-- The values an agent can yield: a `{"thought": ...}` dict, a plain
string, or a full `Message` object (whose single part we inline as role,
content and content type). -/
inductive RunYield
  | thought (s : String)
  | text (s : String)
  | message (role : String) (content : String) (content_type : String)
deriving DecidableEq

/-- An exception value; all the orchestration uses is `str(e)`. -/
structure Failure where
  descr : String

/-- The apology yielded for invalid input (agent.py line 110). -/
def apologyMessage : String :=
  "I" ++ apos ++ "m sorry, but I received invalid input. Please send me a text message!"

/-- First thinking notice (agent.py line 118). -/
def analyzingThought : String :=
  "Analyzing user intent and sentiment..."

/-- Second thinking notice (agent.py line 142). -/
def preparingThought : String :=
  "Preparing detailed response..."

/-- The short reply (agent.py lines 124-137): greeting/farewell/question
-aware base text with an appended sentiment remark. -/
def composeReply (ia : IntentRecord) (user_message : String) : String :=
  let greeting_response :=
    if ia.is_greeting then
      "Hello there! It" ++ apos ++ "s wonderful to meet you! 👋"
    else if ia.is_farewell then
      "Goodbye! It was great chatting with you! 👋"
    else if ia.contains_question then
      "I see you have a question! You asked: " ++ apos ++ user_message ++ apos
    else
      "Hello! You said: " ++ apos ++ user_message ++ apos
  if ia.sentiment = "positive" then
    greeting_response ++ " I can sense the positive energy in your message! ✨"
  else if ia.sentiment = "negative" then
    greeting_response ++ " I hope I can help brighten your day! 🌟"
  else
    greeting_response

/-- Renders a Python bool inside the summary f-string. -/
def yesNo (b : Bool) : String :=
  if b then "Yes" else "No"

/-- The long structured summary (agent.py lines 149-169). -/
def summaryContent (ia : IntentRecord) (user_message : String) : String :=
  "Welcome to the Enhanced BeeAI Agent! 🤖\n\n**Message Analysis:**\n• Intent: "
    ++ ia.intent
    ++ "\n• Sentiment: " ++ ia.sentiment
    ++ "\n• Word count: " ++ toString ia.word_count
    ++ "\n• Contains question: " ++ yesNo ia.contains_question
    ++ "\n• Is greeting: " ++ yesNo ia.is_greeting
    ++ "\n\n**Your message:** \"" ++ user_message
    ++ "\"\n\nI" ++ apos
    ++ "m an enhanced version of the Hello World agent with additional capabilities like input validation, intent analysis, and error handling. I"
    ++ apos
    ++ "m ready to help you explore BeeAI"
    ++ apos
    ++ "s capabilities!\n\n**What I can do:**\n• Analyze sentiment and intent\n• Validate input messages\n• Provide detailed responses\n• Handle errors gracefully\n• Log interactions for debugging\n\nFeel free to send me another message to see how I respond! 🚀"

/-- The error message produced by the outermost `except` clause
(agent.py line 185), embedding `str(e)`. -/
def errorContent (descr : String) : String :=
  "I apologize, but I encountered an error while processing your request: "
    ++ descr
    ++ ". Please try again or contact support if the issue persists."

/-- The `try` body of the generator: the values yielded before completion,
paired with the exception that escaped, if any. -/
def enhancedAgentBody (getText : List Message → Except Failure String)
    (input : List Message) : List RunYield × Option Failure :=
  if validate_input input = false then
    ([.text apologyMessage], none)
  else
    match getText input with
    | .error e => ([], some e)
    | .ok user_message =>
      let ia := extract_user_intent user_message
      ([.thought analyzingThought,
        .text (composeReply ia user_message),
        .thought preparingThought,
        .message "agent" (summaryContent ia user_message) "text/plain"], none)

/-- Embeds `enhanced_hello_world_agent`: runs the body and, when an
exception escaped, appends the single error message the `except` clause
yields.  The run always completes; no failure propagates. -/
def enhanced_hello_world_agent (getText : List Message → Except Failure String)
    (input : List Message) : List RunYield :=
  match enhancedAgentBody getText input with
  | (outs, none) => outs
  | (outs, some e) => outs ++ [.message "agent" (errorContent e.descr) "text/plain"]

/-- Embeds `health_check_agent` (agent.py lines 196-206): one static status
message regardless of input. -/
def health_check_agent (_input : List Message) : List RunYield :=
  [.message "agent" "✅ Agent is healthy and operational! System status: OK" "text/plain"]

/-- Modelled from the spec: the "simpler companion agent variant" of spec
§4.3 has no source file under src/ (src holds only the enhanced agent and
the health-check agent), so its echo template is modelled from the spec's
words: a fixed-template echo line carrying the extracted text. -/
def companionEchoLine (text : String) : String :=
  "You said: " ++ text

/-- Modelled from the spec: the companion variant's second, longer
fixed-template welcome line. -/
def companionWelcomeLine : String :=
  "Hello and welcome! I am a simple Hello World agent built on BeeAI, happy to chat with you!"

/-- Modelled from the spec: the simpler companion agent variant (spec §4.3).
It performs no validation or analysis: it extracts the batch's text and
emits the echo line, then the welcome line.  The fixed pause between the
two yields is an effect, not a yielded value, and is dropped. -/
def hello_world_agent (getText : List Message → String)
    (input : List Message) : List RunYield :=
  let text := getText input
  [.text (companionEchoLine text), .text companionWelcomeLine]

/-! ## Substring containment, characterised

`ContainsSub l pat` is the specification-level statement that `pat` occurs
contiguously inside `l`; `strContains_iff` connects it to the executable
embedding of Python's `in`. -/

def ContainsSub (l pat : List Char) : Prop :=
  ∃ a b, l = a ++ pat ++ b

theorem isPrefixOfChars_iff (p : List Char) :
    ∀ l : List Char, isPrefixOfChars p l = true ↔ ∃ t, p ++ t = l := by
  induction p with
  | nil => intro l; simp [isPrefixOfChars]
  | cons a as ih =>
    intro l
    cases l with
    | nil => simp [isPrefixOfChars]
    | cons b bs =>
      simp only [isPrefixOfChars, Bool.and_eq_true, beq_iff_eq, ih, List.cons_append,
        List.cons.injEq]
      constructor
      · rintro ⟨hab, t, ht⟩
        exact ⟨t, hab, ht⟩
      · rintro ⟨t, hab, ht⟩
        exact ⟨hab, t, ht⟩

theorem strContainsAux_iff (p : List Char) :
    ∀ l : List Char, strContainsAux p l = true ↔ ContainsSub l p := by
  intro l
  induction l with
  | nil =>
    cases p with
    | nil => exact ⟨fun _ => ⟨[], [], rfl⟩, fun _ => rfl⟩
    | cons c cs =>
      simp only [strContainsAux, isPrefixOfChars, ContainsSub]
      constructor
      · intro h; cases h
      · rintro ⟨a, b, hab⟩
        exact absurd hab.symm (by simp)
  | cons c cs ih =>
    simp only [strContainsAux, Bool.or_eq_true, isPrefixOfChars_iff, ih, ContainsSub]
    constructor
    · rintro (⟨t, ht⟩ | ⟨a, b, hab⟩)
      · exact ⟨[], t, by simp [ht]⟩
      · exact ⟨c :: a, b, by simp [hab]⟩
    · rintro ⟨a, b, hab⟩
      cases a with
      | nil =>
        left
        exact ⟨b, by simpa using hab.symm⟩
      | cons x xs =>
        right
        simp only [List.cons_append, List.cons.injEq] at hab
        exact ⟨xs, b, hab.2⟩

theorem strContains_iff (s pat : String) :
    strContains s pat = true ↔ ContainsSub s.data pat.data :=
  strContainsAux_iff pat.data s.data

theorem containsSub_singleton_iff (c : Char) (l : List Char) :
    ContainsSub l [c] ↔ c ∈ l := by
  constructor
  · rintro ⟨a, b, hab⟩
    simp [hab]
  · intro h
    obtain ⟨a, b, hab⟩ := List.append_of_mem h
    exact ⟨a, b, by simp [hab]⟩

theorem containsSub_append (x y z : String) :
    ContainsSub (x ++ y ++ z).data y.data :=
  ⟨x.data, z.data, by simp [String.data_append]⟩

theorem containsSub_of_containsSub_dislike (l : List Char)
    (h : ContainsSub l ("dislike".data)) : ContainsSub l ("like".data) := by
  obtain ⟨a, b, hab⟩ := h
  refine ⟨a ++ "dis".data, b, ?_⟩
  have hd : ("dislike".data : List Char) = "dis".data ++ "like".data := by decide
  simp [hab, hd]

/-! ## Claim theorems -/

/-- Claim C1 (code and test diverge): the code computes `word_count` with
Python's no-argument `split()`, which discards empty tokens, so
`extract_user_intent("")` has `word_count = 0` — not the `1` asserted by the
spec's "empty-split quirk" and by the repository's own test
`test_extract_user_intent_empty_string` (whose comment wrongly states that
`"".split()` returns `[""]`; that is the behaviour of `"".split(" ")`). -/
theorem word_count_empty_string_eq_zero :
    (extract_user_intent "").word_count = 0 := by decide

/-- Claim C8: `extract_user_intent "Hello, how are you?"` has
`contains_question = true`, `is_greeting = true`, `is_farewell = false`,
`word_count = 4` and `sentiment = "neutral"`. -/
theorem hello_example_record :
    (extract_user_intent "Hello, how are you?").contains_question = true ∧
    (extract_user_intent "Hello, how are you?").is_greeting = true ∧
    (extract_user_intent "Hello, how are you?").is_farewell = false ∧
    (extract_user_intent "Hello, how are you?").word_count = 4 ∧
    (extract_user_intent "Hello, how are you?").sentiment = "neutral" := by decide

/-- Claim C2: the sentiment label is determined by comparing the number of
positive-list words occurring as substrings of the lower-cased text against
the number of negative-list words occurring as substrings: "positive" iff
the positive count strictly exceeds the negative count, "negative" iff the
negative count strictly exceeds the positive count, and "neutral" iff the
counts are equal (including 0/0). -/
theorem sentiment_trichotomy (s : String) :
    ((extract_user_intent s).sentiment = "positive" ↔
      negative_count (pyLower s) < positive_count (pyLower s)) ∧
    ((extract_user_intent s).sentiment = "negative" ↔
      positive_count (pyLower s) < negative_count (pyLower s)) ∧
    ((extract_user_intent s).sentiment = "neutral" ↔
      positive_count (pyLower s) = negative_count (pyLower s)) := by
  have hs : (extract_user_intent s).sentiment =
      if negative_count (pyLower s) < positive_count (pyLower s) then "positive"
      else if positive_count (pyLower s) < negative_count (pyLower s) then "negative"
      else "neutral" := rfl
  rcases Nat.lt_trichotomy (negative_count (pyLower s)) (positive_count (pyLower s)) with
    h | h | h
  · rw [hs, if_pos h]
    exact ⟨⟨fun _ => h, fun _ => rfl⟩,
      ⟨fun hx => absurd hx (by decide), fun hx => absurd h (Nat.lt_asymm hx)⟩,
      ⟨fun hx => absurd hx (by decide), fun hx => absurd h (by omega)⟩⟩
  · rw [hs, if_neg (by omega), if_neg (by omega)]
    exact ⟨⟨fun hx => absurd hx (by decide), fun hx => absurd hx (by omega)⟩,
      ⟨fun hx => absurd hx (by decide), fun hx => absurd hx (by omega)⟩,
      ⟨fun _ => h.symm, fun _ => rfl⟩⟩
  · rw [hs, if_neg (by omega), if_pos h]
    exact ⟨⟨fun hx => absurd hx (by decide), fun hx => absurd hx (by omega)⟩,
      ⟨fun _ => h, fun _ => rfl⟩,
      ⟨fun hx => absurd hx (by decide), fun hx => absurd hx (by omega)⟩⟩

/-- Concrete application of `sentiment_trichotomy`: a text with one
positive-list match and no negative-list match is labelled "positive". -/
theorem sentiment_trichotomy_witness :
    (extract_user_intent "I love this").sentiment = "positive" :=
  (sentiment_trichotomy "I love this").1.mpr (by decide)

/-- Claim C7: `contains_question` is true iff the text contains a literal
question-mark character; `is_greeting` is true iff the lower-cased text
contains one of the six fixed greeting substrings; `is_farewell` is true iff
the lower-cased text contains one of the five fixed farewell substrings. -/
theorem flag_semantics (s : String) :
    ((extract_user_intent s).contains_question = true ↔ '?' ∈ s.data) ∧
    ((extract_user_intent s).is_greeting = true ↔
      (ContainsSub (pyLower s).data "hello".data ∨
       ContainsSub (pyLower s).data "hi".data ∨
       ContainsSub (pyLower s).data "hey".data ∨
       ContainsSub (pyLower s).data "greetings".data ∨
       ContainsSub (pyLower s).data "good morning".data ∨
       ContainsSub (pyLower s).data "good afternoon".data)) ∧
    ((extract_user_intent s).is_farewell = true ↔
      (ContainsSub (pyLower s).data "bye".data ∨
       ContainsSub (pyLower s).data "goodbye".data ∨
       ContainsSub (pyLower s).data "farewell".data ∨
       ContainsSub (pyLower s).data "see you".data ∨
       ContainsSub (pyLower s).data "take care".data)) := by
  refine ⟨?_, ?_, ?_⟩
  · have h1 : (extract_user_intent s).contains_question = strContains s "?" := rfl
    rw [h1, strContains_iff]
    have h2 : ("?" : String).data = ['?'] := rfl
    rw [h2, containsSub_singleton_iff]
  · have h1 : (extract_user_intent s).is_greeting =
        (greeting_words.any fun g => strContains (pyLower s) g) := rfl
    rw [h1]
    simp [greeting_words, strContains_iff]
  · have h1 : (extract_user_intent s).is_farewell =
        (farewell_words.any fun f => strContains (pyLower s) f) := rfl
    rw [h1]
    simp [farewell_words, strContains_iff]

/-- Concrete application of `flag_semantics`: "HELLO there!" is detected as
a greeting (case-insensitively) and "?!@#$%" as a question. -/
theorem flag_semantics_witness :
    (extract_user_intent "HELLO there!").is_greeting = true ∧
    (extract_user_intent "?!@#$%").contains_question = true :=
  ⟨(flag_semantics "HELLO there!").2.1.mpr (Or.inl ⟨[], " there!".data, by decide⟩),
   (flag_semantics "?!@#$%").1.mpr (by decide)⟩

/-- Claim C10: "like" is on the positive list and is a substring of the
negative-list word "dislike", so any lower-cased text containing "dislike"
scores at least one positive match; in particular
`extract_user_intent "I dislike this"` is labelled "neutral", not
"negative". -/
theorem dislike_scores_positive :
    (∀ lower : String, ContainsSub lower.data "dislike".data →
      1 ≤ positive_count lower) ∧
    (extract_user_intent "I dislike this").sentiment = "neutral" := by
  constructor
  · intro lower h
    have hlike : strContains lower "like" = true :=
      (strContains_iff lower "like").mpr (containsSub_of_containsSub_dislike _ h)
    have hmem : ("like" : String) ∈ positive_words := by decide
    exact List.countP_pos_iff.mpr ⟨"like", hmem, hlike⟩
  · decide

/-- Concrete application of `dislike_scores_positive` at the lower-cased
text "i dislike this". -/
theorem dislike_scores_positive_witness :
    1 ≤ positive_count "i dislike this" ∧
    (extract_user_intent "I dislike this").sentiment = "neutral" :=
  ⟨dislike_scores_positive.1 "i dislike this" ⟨"i ".data, " this".data, by decide⟩,
   dislike_scores_positive.2⟩

/-- Claim C3: `validate_input` returns false iff the batch is empty, or some
message has zero parts, or some part's content is the empty string or not a
text string; on every other well-formed batch it returns true (the function
is pure and total, so it has no side effects and raises nothing). -/
theorem validate_input_false_iff (msgs : List Message) :
    validate_input msgs = false ↔
      msgs = [] ∨
      (∃ m ∈ msgs, m.parts = []) ∨
      (∃ m ∈ msgs, ∃ p ∈ m.parts,
        p.content = PartContent.text "" ∨ ∃ b, p.content = PartContent.nonText b) := by
  have hval : validate_input msgs = true ↔
      (msgs ≠ [] ∧ ∀ m ∈ msgs, m.parts ≠ [] ∧ ∀ p ∈ m.parts, part_valid p = true) := by
    simp [validate_input, List.all_eq_true]
  have hfalse : validate_input msgs = false ↔ ¬ validate_input msgs = true := by
    simp
  rw [hfalse, hval]
  constructor
  · intro h
    by_cases h0 : msgs = []
    · exact Or.inl h0
    right
    have h1 : ¬ ∀ m ∈ msgs, m.parts ≠ [] ∧ ∀ p ∈ m.parts, part_valid p = true :=
      fun hall => h ⟨h0, hall⟩
    push_neg at h1
    obtain ⟨m, hm, himp⟩ := h1
    by_cases hp : m.parts = []
    · exact Or.inl ⟨m, hm, hp⟩
    obtain ⟨p, hpm, hpv⟩ := himp hp
    right
    refine ⟨m, hm, p, hpm, ?_⟩
    cases hc : p.content with
    | text str =>
      left
      have hstr : str = "" := by
        rw [part_valid, hc] at hpv
        simpa using hpv
      rw [hstr]
    | nonText b =>
      exact Or.inr ⟨b, rfl⟩
  · rintro (h0 | ⟨m, hm, hp⟩ | ⟨m, hm, p, hpm, hbad⟩)
    · rintro ⟨hne, -⟩
      exact hne h0
    · rintro ⟨-, hall⟩
      exact (hall m hm).1 hp
    · rintro ⟨-, hall⟩
      have hok := (hall m hm).2 p hpm
      rcases hbad with hc | ⟨b, hc⟩
      · rw [part_valid, hc] at hok
        simp at hok
      · rw [part_valid, hc] at hok
        simp at hok

/-- Concrete application of `validate_input_false_iff`: the empty batch is
rejected. -/
theorem validate_input_false_iff_witness : validate_input [] = false :=
  (validate_input_false_iff []).mpr (Or.inl rfl)

/-- Claim C4: on a batch that fails validation, the orchestration yields
exactly one apology output and terminates; in particular it never yields a
`Message` object, so never the structured summary message. -/
theorem invalid_batch_yields_single_apology
    (getText : List Message → Except Failure String) (input : List Message)
    (h : validate_input input = false) :
    enhanced_hello_world_agent getText input = [RunYield.text apologyMessage] ∧
    ∀ r c t, RunYield.message r c t ∉ enhanced_hello_world_agent getText input := by
  have hout : enhanced_hello_world_agent getText input = [RunYield.text apologyMessage] := by
    simp [enhanced_hello_world_agent, enhancedAgentBody, h]
  refine ⟨hout, ?_⟩
  intro r c t hmem
  rw [hout] at hmem
  simp at hmem

/-- Concrete application of `invalid_batch_yields_single_apology` at the
empty batch. -/
theorem invalid_batch_yields_single_apology_witness :
    enhanced_hello_world_agent (fun _ => Except.ok "") [] = [RunYield.text apologyMessage] :=
  (invalid_batch_yields_single_apology (fun _ => Except.ok "") [] (by decide)).1

/-- Claim C5: when processing a valid batch raises an uncaught failure (here:
the external text-extraction collaborator fails), the outermost boundary
catches it and the run yields exactly one user-facing error message whose
content embeds the failure's description; the run completes normally since
the embedding is a total function. -/
theorem failure_yields_single_error_message
    (getText : List Message → Except Failure String) (input : List Message) (e : Failure)
    (hv : validate_input input = true) (he : getText input = Except.error e) :
    enhanced_hello_world_agent getText input =
      [RunYield.message "agent" (errorContent e.descr) "text/plain"] ∧
    ContainsSub (errorContent e.descr).data e.descr.data := by
  constructor
  · simp [enhanced_hello_world_agent, enhancedAgentBody, hv, he]
  · exact containsSub_append _ _ _

/-- Concrete application of `failure_yields_single_error_message`: a valid
one-message batch with a failing text extractor produces the single error
message. -/
theorem failure_yields_single_error_message_witness :
    enhanced_hello_world_agent (fun _ => Except.error ⟨"boom"⟩)
        [{ role := "user",
           parts := [{ content := PartContent.text "Hello, world!",
                       content_type := "text/plain" }] }] =
      [RunYield.message "agent" (errorContent "boom") "text/plain"] :=
  (failure_yields_single_error_message _ _ _ (by decide) rfl).1

/-- Claim C6: on a valid batch whose processing does not fail, the
orchestration yields exactly four outputs, in order: the first thinking
notice, the short intent-aware reply with its sentiment remark, the second
thinking notice, and the structured summary message built from the
IntentRecord fields and the static help text. -/
theorem valid_flow_yields_four_outputs
    (getText : List Message → Except Failure String) (input : List Message) (s : String)
    (hv : validate_input input = true) (hs : getText input = Except.ok s) :
    enhanced_hello_world_agent getText input =
      [RunYield.thought analyzingThought,
       RunYield.text (composeReply (extract_user_intent s) s),
       RunYield.thought preparingThought,
       RunYield.message "agent" (summaryContent (extract_user_intent s) s) "text/plain"] ∧
    (enhanced_hello_world_agent getText input).length = 4 := by
  have hout : enhanced_hello_world_agent getText input =
      [RunYield.thought analyzingThought,
       RunYield.text (composeReply (extract_user_intent s) s),
       RunYield.thought preparingThought,
       RunYield.message "agent" (summaryContent (extract_user_intent s) s) "text/plain"] := by
    simp [enhanced_hello_world_agent, enhancedAgentBody, hv, hs]
  exact ⟨hout, by rw [hout]; rfl⟩

/-- Concrete application of `valid_flow_yields_four_outputs` at a valid
one-message batch whose text is "Hello". -/
theorem valid_flow_yields_four_outputs_witness :
    enhanced_hello_world_agent (fun _ => Except.ok "Hello")
        [{ role := "user",
           parts := [{ content := PartContent.text "Hello",
                       content_type := "text/plain" }] }] =
      [RunYield.thought analyzingThought,
       RunYield.text (composeReply (extract_user_intent "Hello") "Hello"),
       RunYield.thought preparingThought,
       RunYield.message "agent" (summaryContent (extract_user_intent "Hello") "Hello")
         "text/plain"] :=
  (valid_flow_yields_four_outputs _ _ _ (by decide) rfl).1

/-- Claim C9: the simpler companion agent variant performs no validation or
analysis: for every batch (including ones that would fail validation) it
emits exactly two fixed-template responses, the echo line and then the
welcome line. -/
theorem companion_agent_two_outputs (getText : List Message → String)
    (input : List Message) :
    hello_world_agent getText input =
      [RunYield.text (companionEchoLine (getText input)),
       RunYield.text companionWelcomeLine] ∧
    (hello_world_agent getText input).length = 2 :=
  ⟨rfl, rfl⟩

/-- Concrete application of `companion_agent_two_outputs` at the empty
batch (which the enhanced agent would reject, but the companion echoes). -/
theorem companion_agent_two_outputs_witness :
    hello_world_agent (fun _ => "Hi") [] =
      [RunYield.text (companionEchoLine "Hi"), RunYield.text companionWelcomeLine] :=
  (companion_agent_two_outputs (fun _ => "Hi") []).1

end BeeaiAgent
